import Mathlib

/-!
Shallow embedding of `src/discord_sync.py` (Discord-File-Host).

The script is a linear ETL pipeline: read two environment variables,
fetch one page of channel messages over HTTP, flatten attachments,
sort them newest-first by the `uploaded_at` timestamp, and serialize
the result as JSON.  Each Python function is translated into a Lean
definition of the same name; process exit / uncaught exceptions are
modelled with `Except`.
-/

namespace DiscordSync

/--
Model of a Python `datetime.datetime` value: proleptic-Gregorian
calendar fields plus an optional UTC offset in microseconds (ISO
offsets may carry seconds and fractional seconds).  `offsetMicros =
none` models a timezone-naive datetime, `some o` an aware one whose
`utcoffset()` totals `o` microseconds.  Python refuses to
order-compare a naive datetime with an aware one (it raises
`TypeError`).
-/
structure PyDateTime where
  year : Nat
  month : Nat
  day : Nat
  hour : Nat
  minute : Nat
  second : Nat
  microsecond : Nat
  offsetMicros : Option Int
deriving DecidableEq, Repr

/-- Python's `datetime.min`: 0001-01-01 00:00:00, naive. -/
def datetimeMin : PyDateTime := ⟨1, 1, 1, 0, 0, 0, 0, none⟩

/-- Gregorian leap-year test, as in Python's `calendar.isleap`. -/
def isLeap (y : Nat) : Bool :=
  (y % 4 == 0 && y % 100 != 0) || y % 400 == 0

/-- Number of days in month `m` of year `y`. -/
def daysInMonth (y m : Nat) : Nat :=
  if m == 2 then (if isLeap y then 29 else 28)
  else if m == 4 || m == 6 || m == 9 || m == 11 then 30
  else 31

/-- Days in year `y` strictly before month `m`. -/
def daysBeforeMonth (y m : Nat) : Nat :=
  (List.range (m - 1)).foldl (fun acc i => acc + daysInMonth y (i + 1)) 0

/-- Days strictly before January 1 of year `y` (proleptic Gregorian). -/
def daysBeforeYear (y : Nat) : Nat :=
  (y - 1) * 365 + (y - 1) / 4 - (y - 1) / 100 + (y - 1) / 400

/-- Python's `date.toordinal`: 0001-01-01 is day 1. -/
def toOrdinal (t : PyDateTime) : Nat :=
  daysBeforeYear t.year + daysBeforeMonth t.year t.month + t.day

/--
The instant a datetime denotes, in microseconds (offset subtracted for
aware values).  Python orders two naive datetimes lexicographically by
field, and two aware ones by UTC instant; on valid datetimes both
orders agree with comparing this integer, as long as the two operands
are both naive or both aware.
-/
def instantMicros (t : PyDateTime) : Int :=
  ((toOrdinal t * 86400 + t.hour * 3600 + t.minute * 60 + t.second : Nat) : Int) * 1000000
    + (t.microsecond : Int)
    - (match t.offsetMicros with
       | some o => o
       | none => 0)

/-- Whether a datetime is timezone-aware. -/
def isAware (t : PyDateTime) : Bool := t.offsetMicros.isSome

/-- Value of a decimal digit character. -/
def digitVal (c : Char) : Nat := c.toNat - 48

/-- Two decimal digits, or `none` when either character is not a digit. -/
def num2 (a b : Char) : Option Nat :=
  if a.isDigit && b.isDigit then some (digitVal a * 10 + digitVal b) else none

/-- Four decimal digits, or `none` when any character is not a digit. -/
def num4 (a b c d : Char) : Option Nat :=
  if a.isDigit && b.isDigit && c.isDigit && d.isDigit then
    some (((digitVal a * 10 + digitVal b) * 10 + digitVal c) * 10 + digitVal d)
  else none

/-- Decimal value of a digit list (most significant first). -/
def digitsToNat (l : List Char) : Nat :=
  l.foldl (fun acc c => acc * 10 + digitVal c) 0

/--
Conversion of a proleptic-Gregorian ordinal (0001-01-01 is day 1) back
to year/month/day fields, as Python's `_ord2ymd`; used for week dates,
whose Gregorian fields come out of this conversion.
-/
def ordinalToYMD (n : Nat) : Nat × Nat × Nat :=
  let z := n + 305
  let era := z / 146097
  let doe := z % 146097
  let yoe := (doe - doe / 1460 + doe / 36524 - doe / 146096) / 365
  let doy := doe - (365 * yoe + yoe / 4 - yoe / 100)
  let mp := (5 * doy + 2) / 153
  let d := doy - (153 * mp + 2) / 5 + 1
  let m := if mp < 10 then mp + 3 else mp - 9
  let y := yoe + era * 400 + (if m ≤ 2 then 1 else 0)
  (y, m, d)

/-- Ordinal of the Monday of ISO week 1 of year `y` (Python's `_isoweek1monday`). -/
def isoWeek1Monday (y : Nat) : Nat :=
  let firstday := daysBeforeYear y + 1
  let firstweekday := (firstday + 6) % 7
  let base := firstday - firstweekday
  if firstweekday > 3 then base + 7 else base

/--
Whether ISO year `y` has 53 weeks: years starting on a Thursday, and
leap years starting on a Wednesday (as in Python's
`_isoweek_to_gregorian`).
-/
def hasWeek53 (y : Nat) : Bool :=
  let fw := (daysBeforeYear y + 1) % 7
  fw == 4 || (fw == 3 && isLeap y)

/--
Python's `_isoweek_to_gregorian`: validate an ISO year/week/weekday
triple and convert it to Gregorian fields; the converted year must
stay within 1..9999.
-/
def isoWeekToGregorian (y w d : Nat) : Option (Nat × Nat × Nat) :=
  if 1 ≤ y ∧ ((1 ≤ w ∧ w ≤ 52) ∨ (w = 53 ∧ hasWeek53 y = true)) ∧ 1 ≤ d ∧ d ≤ 7 then
    let o := isoWeek1Monday y + (w - 1) * 7 + (d - 1)
    let r := ordinalToYMD o
    if r.1 ≤ 9999 then some r else none
  else none

/-- Two decimal digits from the head of the list, with the remainder. -/
def parse2 : List Char → Option (Nat × List Char)
  | a :: b :: rest => (num2 a b).map fun v => (v, rest)
  | _ => none

/-- A single decimal digit. -/
def digit1 (c : Char) : Option Nat :=
  if c.isDigit then some (digitVal c) else none

/--
Fraction tail of CPython's `parse_hh_mm_ss_ff`: the first at most six
characters must be digits and give the microseconds, scaled up when
fewer than six; characters beyond the sixth are digit-checked only
when the clock part runs to the end of the string (`tz = false`) —
when a timezone marker follows (`tz = true`) they are discarded
unchecked, as CPython 3.11.6's C parser does.
-/
def hmsFrac (tz : Bool) (h m s : Nat) (l : List Char) : Option (Nat × Nat × Nat × Nat) :=
  let tp := min 6 l.length
  let ds := l.take tp
  if ds.all Char.isDigit && (tz || (l.drop tp).all Char.isDigit) then
    some (h, m, s, digitsToNat ds * 10 ^ (6 - tp))
  else none

/--
Third iteration (seconds) of the component loop of CPython's
`parse_hh_mm_ss_ff`: after the seconds the loop leaves the component
phase, so a following `:`, `.` or `,` — or, in the colon-free mode,
any remaining characters — hand the rest to the fraction parser.  A
single trailing character is discarded when a timezone marker follows
and is an error otherwise (observed behaviour of CPython 3.11.6's C
parser; the pure-Python mirror rejects it).
-/
def hmsSec (tz hasSep : Bool) (h m : Nat) (l : List Char) : Option (Nat × Nat × Nat × Nat) :=
  (parse2 l).bind fun sr =>
    match sr.2 with
    | [] => some (h, m, sr.1, 0)
    | [_] => if tz then some (h, m, sr.1, 0) else none
    | c :: rest1 =>
      if c = ':' then (if hasSep then hmsFrac tz h m sr.1 rest1 else none)
      else if c = '.' ∨ c = ',' then hmsFrac tz h m sr.1 rest1
      else if hasSep then none
      else hmsFrac tz h m sr.1 (c :: rest1)

/--
Second iteration (minutes) of the component loop of CPython's
`parse_hh_mm_ss_ff`: in colon mode the next component needs a `:`, in
colon-free mode it starts immediately; `.` or `,` starts the fraction;
a single trailing character is discarded exactly when a timezone
marker follows.
-/
def hmsMin (tz hasSep : Bool) (h : Nat) (l : List Char) : Option (Nat × Nat × Nat × Nat) :=
  (parse2 l).bind fun mr =>
    match mr.2 with
    | [] => some (h, mr.1, 0, 0)
    | [_] => if tz then some (h, mr.1, 0, 0) else none
    | c :: rest1 =>
      if c = ':' then (if hasSep then hmsSec tz hasSep h mr.1 rest1 else none)
      else if c = '.' ∨ c = ',' then hmsFrac tz h mr.1 0 rest1
      else if hasSep then none
      else hmsSec tz hasSep h mr.1 (c :: rest1)

/--
CPython's `parse_hh_mm_ss_ff` (shared by the time of day and the UTC
offset): `HH`, then optionally minutes and seconds either all
colon-separated or all adjacent (the first following character fixes
the mode), then an optional fraction.  `tz` records whether a timezone
marker follows the parsed portion, which loosens the trailing-garbage
handling as in CPython 3.11.6's C parser; the transcription is
verified against that parser on a differential corpus.
-/
def parseHMSF (tz : Bool) (l : List Char) : Option (Nat × Nat × Nat × Nat) :=
  (parse2 l).bind fun hr =>
    match hr.2 with
    | [] => some (hr.1, 0, 0, 0)
    | [_] => if tz then some (hr.1, 0, 0, 0) else none
    | c :: rest1 =>
      if c = ':' then hmsMin tz true hr.1 rest1
      else if c = '.' ∨ c = ',' then hmsFrac tz hr.1 0 0 rest1
      else hmsMin tz false hr.1 (c :: rest1)

/-- Whether a character starts the UTC-offset part of an ISO time string. -/
def isTzChar (c : Char) : Bool := c == 'Z' || c == '+' || c == '-'

/--
Split an ISO time string at the first `Z`, `+` or `-`, as CPython's
`parse_isoformat_time` does before parsing the clock part.
-/
def splitAtTz : List Char → List Char × Option (Char × List Char)
  | [] => ([], none)
  | c :: rest =>
    if isTzChar c then ([], some (c, rest))
    else
      let p := splitAtTz rest
      (c :: p.1, p.2)

/--
CPython's `parse_isoformat_time`: split at the first timezone marker,
parse the clock part (validating hour/minute/second ranges), then the
offset — `Z` alone, or a sign followed by the same clock grammar whose
total, taken in microseconds, must stay strictly below 24 hours; the
offset components themselves carry no individual range checks, and an
offset whose whole-second total is zero collapses to plain UTC with
its microseconds discarded (CPython checks only the second total
before shortcutting to the UTC singleton).
-/
def parseIsoTime (l : List Char) : Option (Nat × Nat × Nat × Nat × Option Int) :=
  let sp := splitAtTz l
  (parseHMSF sp.2.isSome sp.1).bind fun tc =>
  match tc with
  | (h, m, s, us) =>
    if h ≤ 23 ∧ m ≤ 59 ∧ s ≤ 59 then
      match sp.2 with
      | none => some (h, m, s, us, none)
      | some (marker, rest) =>
        if marker = 'Z' then
          if rest.isEmpty then some (h, m, s, us, some 0) else none
        else
          (parseHMSF false rest).bind fun oc =>
          match oc with
          | (oh, om, os, ous) =>
            let secs := oh * 3600 + om * 60 + os
            if secs = 0 then some (h, m, s, us, some 0)
            else
              let total : Int := ((secs * 1000000 + ous : Nat) : Int)
              if total < 86400000000 then
                some (h, m, s, us, some (if marker = '-' then -total else total))
              else none
    else none

/--
Month/day tail of CPython's `parse_isoformat_date`, after the year:
two-digit month, a dash exactly when the date is dash-separated,
two-digit day, end of the date portion; then the usual calendar range
checks.
-/
def parseMonthDay (y : Nat) (hasSep : Bool) (l : List Char) : Option (Nat × Nat × Nat) :=
  match l with
  | m1 :: m2 :: rest =>
    (num2 m1 m2).bind fun mo =>
    (match hasSep, rest with
     | true, '-' :: d1 :: d2 :: [] => num2 d1 d2
     | false, d1 :: d2 :: [] => num2 d1 d2
     | _, _ => none).bind fun d =>
    if 1 ≤ y ∧ 1 ≤ mo ∧ mo ≤ 12 ∧ 1 ≤ d ∧ d ≤ daysInMonth y mo then some (y, mo, d)
    else none
  | _ => none

/--
Week tail of CPython's `parse_isoformat_date`, after the `W`:
two-digit week, then optionally — behind a dash exactly when the date
is dash-separated — a one-digit ISO weekday (default 1), then end of
the date portion.
-/
def parseWeekPart (y : Nat) (hasSep : Bool) (l : List Char) : Option (Nat × Nat × Nat) :=
  match l with
  | w1 :: w2 :: rest =>
    (num2 w1 w2).bind fun w =>
    (match rest with
     | [] => some 1
     | _ =>
       match hasSep, rest with
       | true, '-' :: d :: [] => digit1 d
       | false, d :: [] => digit1 d
       | _, _ => none).bind fun dy =>
    isoWeekToGregorian y w dy
  | _ => none

/--
CPython's `parse_isoformat_date`: a strict four-digit year, then a
calendar date (`-MM-DD` or `MMDD`) or an ISO week date (`-Www[-D]` or
`Www[D]`); the dash use must be consistent throughout.
-/
def parseIsoDate (l : List Char) : Option (Nat × Nat × Nat) :=
  match l with
  | y1 :: y2 :: y3 :: y4 :: rest =>
    (num4 y1 y2 y3 y4).bind fun y =>
    match rest with
    | '-' :: rest2 =>
      if rest2.head? = some 'W' then parseWeekPart y true rest2.tail
      else parseMonthDay y true rest2
    | 'W' :: rest2 => parseWeekPart y false rest2
    | rest2 => parseMonthDay y false rest2
  | _ => none

/--
CPython's `_find_isoformat_datetime_separator`: from the shape of the
first characters, decide how many characters belong to the date, the
next character (any character, `T` included) being the separator; for
`YYYY-Www-##` the dash at index 8 is preferred as the separator when a
digit follows at index 10.
-/
def findSeparatorLoc (l : List Char) : Option Nat :=
  let n := l.length
  if n = 7 then some 7
  else if l.getD 4 ' ' = '-' then
    if l.getD 5 ' ' = 'W' then
      if n > 8 ∧ l.getD 8 ' ' = '-' then
        if n = 9 then none
        else if n > 10 ∧ (l.getD 10 ' ').isDigit then some 8
        else some 10
      else some 8
    else some 10
  else if l.getD 4 ' ' = 'W' then
    let idx := 7 + ((l.drop 7).takeWhile Char.isDigit).length
    if idx < 9 then some idx
    else if idx % 2 = 0 then some 7 else some 8
  else some 8

/--
Model of `datetime.fromisoformat` (the standard library function
called by `parse_timestamp`; its code is not part of this repository),
transcribed from CPython 3.11's implementation
(`Modules/_datetimemodule.c`, mirrored in `Lib/datetime.py`) and
verified against CPython 3.11.6 on a differential corpus: locate the
date/time separator, parse the date portion, then — when anything
follows — skip one separator character and parse a non-empty time
portion.  Strings the implementation rejects (the empty string
included) yield `none`, modelling `ValueError`.
-/
def parseIso (l : List Char) : Option PyDateTime :=
  if l.length < 7 then none
  else
    (findSeparatorLoc l).bind fun sep =>
    (parseIsoDate (l.take sep)).bind fun ymd =>
    match ymd with
    | (y, mo, d) =>
      match l.drop sep with
      | [] => some ⟨y, mo, d, 0, 0, 0, 0, none⟩
      | _sep :: tchars =>
        (parseIsoTime tchars).map fun tc =>
          match tc with
          | (h, mi, s, us, off) => ⟨y, mo, d, h, mi, s, us, off⟩

/-- Model of `datetime.fromisoformat`, on `String`. -/
def fromisoformatOpt (s : String) : Option PyDateTime := parseIso s.data

/--
Model of Python's `ts.replace("Z", "+00:00")` on the character list:
every occurrence of `Z` is replaced (the pattern is a single
character, so `str.replace` substitutes each `Z` character).
-/
def replaceZL : List Char → List Char
  | [] => []
  | c :: rest =>
    (if c = 'Z' then ['+', '0', '0', ':', '0', '0'] else [c]) ++ replaceZL rest

/-- Model of `ts.replace("Z", "+00:00")` on `String`. -/
def pyReplaceZ (s : String) : String := String.mk (replaceZL s.data)

/-- Model of Python's `"." in ts` membership test. -/
def hasDotL : List Char → Bool
  | [] => false
  | c :: rest => c == '.' || hasDotL rest

/-- Whether the string contains a `.` character. -/
def hasDot (ts : String) : Bool := hasDotL ts.data

/--
The `if "." in ts` branch of `parse_timestamp` (line 128 of the
source): `datetime.fromisoformat(ts.replace("Z", "+00:00"))`, with the
surrounding `try/except` returning `datetime.min` on `ValueError`.
-/
def parseBranchWithDot (ts : String) : PyDateTime :=
  (fromisoformatOpt (pyReplaceZ ts)).getD datetimeMin

/--
The `else` branch of `parse_timestamp` (line 130 of the source) — the
source repeats the same expression as the `"."` branch.
-/
def parseBranchNoDot (ts : String) : PyDateTime :=
  (fromisoformatOpt (pyReplaceZ ts)).getD datetimeMin

/--
The key function `parse_timestamp` of `sort_attachments`, on the
`uploaded_at` string: empty string (falsy) gives `datetime.min`,
otherwise the branch on `"." in ts`; a `ValueError` from
`fromisoformat` is caught and also gives `datetime.min`.
-/
def parseTimestampStr (ts : String) : PyDateTime :=
  if ts ≠ "" then
    (if hasDot ts then parseBranchWithDot ts else parseBranchNoDot ts)
  else datetimeMin

/--
Output record built by `extract_attachments` (the Python dict literal
of lines 105-112, whose keys are inserted in exactly this field
order).  `size` is the attachment byte size, a non-negative JSON
integer.
-/
structure FileInfo where
  name : String
  url : String
  uploaded_at : String
  author : String
  size : Nat
  content_type : String
deriving DecidableEq, Repr

/-- The key function `parse_timestamp(item)` of `sort_attachments`. -/
def parse_timestamp (item : FileInfo) : PyDateTime :=
  parseTimestampStr item.uploaded_at

/--
The `author` object of a Discord message: `global_name` and
`username`, each `none` when the JSON field is absent.
-/
structure AuthorObj where
  global_name : Option String
  username : Option String
deriving DecidableEq, Repr

/--
One attachment object of a Discord message; each field is `none` when
absent, matching the `attachment.get(...)` defaults in the source.
-/
structure AttachmentObj where
  filename : Option String
  url : Option String
  size : Option Nat
  content_type : Option String
deriving DecidableEq, Repr

/--
A Discord message as consumed by `extract_attachments`.  An absent
`attachments` field and an empty list are both falsy under
`msg.get("attachments")`, so absence is modelled by the empty list;
`author` and `timestamp` are `none` when absent.
-/
structure Message where
  author : Option AuthorObj
  timestamp : Option String
  attachments : List AttachmentObj
deriving DecidableEq, Repr

/--
Python's `x or y` where `x` is the result of a string-valued
`dict.get` (falsy exactly when `None` or the empty string).
-/
def orElseStr (x : Option String) (y : String) : String :=
  match x with
  | some s => if s = "" then y else s
  | none => y

/--
Author-name resolution of lines 98-99:
`msg.get("author", {})` then
`author.get("global_name") or author.get("username") or "Unknown"`.
-/
def authorNameOf (a : Option AuthorObj) : String :=
  let ao := a.getD ⟨none, none⟩
  orElseStr ao.global_name (orElseStr ao.username "Unknown")

/-- The `file_info` dict built for one attachment (lines 105-112). -/
def fileInfoOf (msg : Message) (a : AttachmentObj) : FileInfo :=
  { name := a.filename.getD "unknown"
    url := a.url.getD ""
    uploaded_at := msg.timestamp.getD ""
    author := authorNameOf msg.author
    size := a.size.getD 0
    content_type := a.content_type.getD "" }

/--
`extract_attachments` (lines 81-116): skip a message whose
`attachments` is falsy, otherwise append one record per attachment in
list order.
-/
def extract_attachments : List Message → List FileInfo
  | [] => []
  | msg :: rest =>
    if msg.attachments.isEmpty then extract_attachments rest
    else msg.attachments.map (fileInfoOf msg) ++ extract_attachments rest

/-- Integer sort key of a record under a datetime key function. -/
def sortKeyBy (keyf : FileInfo → PyDateTime) (x : FileInfo) : Int :=
  instantMicros (keyf x)

/--
Stable insertion of `x` (an element originally to the left of every
element of the list) into a descending-sorted list: `x` stays before
every element whose key is not strictly greater than its own.
-/
def insertDescBy (keyf : FileInfo → PyDateTime) (x : FileInfo) :
    List FileInfo → List FileInfo
  | [] => [x]
  | y :: ys =>
    if sortKeyBy keyf x < sortKeyBy keyf y then y :: insertDescBy keyf x ys
    else x :: y :: ys

/--
Stable descending sort by key.  Python's `sorted(l, key=k,
reverse=True)` is the unique stable reordering of `l` that is
non-increasing in `k`, which this insertion sort computes.
-/
def isortDescBy (keyf : FileInfo → PyDateTime) : List FileInfo → List FileInfo
  | [] => []
  | x :: xs => insertDescBy keyf x (isortDescBy keyf xs)

/--
Whether a list of datetime keys is mutually order-comparable in
Python: all aware or all naive.  When the list mixes the two kinds,
any comparison sort must at some point compare a naive key with an
aware one, and that comparison raises `TypeError`.
-/
def keysComparable (ks : List PyDateTime) : Bool :=
  ks.all (fun k => isAware k) || ks.all (fun k => !isAware k)

/-- The `TypeError` message CPython raises for a naive/aware comparison. -/
def naiveAwareTypeError : String :=
  "TypeError: cannot compare offset-naive and offset-aware datetimes"

/--
`sort_attachments` (lines 119-135): `sorted(attachments,
key=parse_timestamp, reverse=True)`.  The keys are computed through
the `try/except` of `parse_timestamp` (which never raises), but the
comparisons inside `sorted` are not protected: a list whose keys mix
naive (`datetime.min` fallback, offset-free timestamps) and aware
(offset-carrying timestamps) datetimes makes `sorted` raise an
uncaught `TypeError`, modelled by `Except.error`; otherwise the result
is the stable descending reordering.
-/
def sort_attachments (attachments : List FileInfo) : Except String (List FileInfo) :=
  if keysComparable (attachments.map parse_timestamp) then
    Except.ok (isortDescBy parse_timestamp attachments)
  else Except.error naiveAwareTypeError

/-- The process environment as seen by `get_env_vars`. -/
structure Env where
  token : Option String
  channel_id : Option String
deriving DecidableEq, Repr

/-- Python truthiness test for an `os.environ.get` result: falsy when unset or empty. -/
def falsyStr (x : Option String) : Bool := x.getD "" == ""

/-- A fatal outcome of a run: the message printed before `sys.exit(1)`, or an uncaught exception. -/
inductive SyncErr where
  | missingEnv (message : String)
  | httpError (message : String)
  | apiError (status : Nat) (body : String)
  | jsonDecodeError (message : String)
  | typeErrorCrash (message : String)
deriving DecidableEq, Repr

/--
`get_env_vars` (lines 24-36): the token is tested first, then the
channel id; a falsy value reports the corresponding message and exits.
-/
def get_env_vars (env : Env) : Except SyncErr (String × String) :=
  if falsyStr env.token then
    Except.error (SyncErr.missingEnv "ERROR: DISCORD_BOT_TOKEN environment variable not set")
  else if falsyStr env.channel_id then
    Except.error (SyncErr.missingEnv "ERROR: DISCORD_CHANNEL_ID environment variable not set")
  else Except.ok (env.token.getD "", env.channel_id.getD "")

/--
An HTTP response as consumed by `fetch_messages`: the status code, the
result of `response.json()` (`Except.error` models a decode failure,
which the source does not catch), and the raw `response.text`.
-/
structure HttpResponse where
  status : Nat
  jsonBody : Except String (List Message)
  text : String

/-- The request URL built on line 51. -/
def requestUrl (channel_id : String) : String :=
  "https://discord.com/api/v10/channels/" ++ channel_id ++ "/messages"

/-- The `limit` query parameter sent on line 56: `min(limit, 100)`. -/
def requestLimitParam (limit : Int) : Int := min limit 100

/-- The default value of the `limit` parameter of `fetch_messages` (line 39). -/
def fetchLimitDefault : Int := 100

/--
The status dispatch of `fetch_messages` (lines 60-78): 200 returns the
parsed JSON body, 401/403/404 exit with specific messages, anything
else exits reporting the status and the raw body.
-/
def fetch_messages (resp : HttpResponse) : Except SyncErr (List Message) :=
  if resp.status = 200 then
    match resp.jsonBody with
    | Except.ok msgs => Except.ok msgs
    | Except.error e => Except.error (SyncErr.jsonDecodeError e)
  else if resp.status = 401 then
    Except.error (SyncErr.httpError "ERROR: Invalid bot token (401 Unauthorized)")
  else if resp.status = 403 then
    Except.error (SyncErr.httpError "ERROR: Bot lacks permission to read this channel (403 Forbidden)")
  else if resp.status = 404 then
    Except.error (SyncErr.httpError "ERROR: Channel not found (404 Not Found)")
  else Except.error (SyncErr.apiError resp.status resp.text)

/-- `sort_attachments` with its uncaught `TypeError` lifted into `SyncErr`. -/
def sortAttachmentsE (l : List FileInfo) : Except SyncErr (List FileInfo) :=
  match sort_attachments l with
  | Except.ok r => Except.ok r
  | Except.error e => Except.error (SyncErr.typeErrorCrash e)

/--
The data pipeline of `main` (lines 156-179), with the process
environment and the (single) HTTP response as inputs: env check, then
fetch, then extract, then sort; the `Except.ok` value is the record
list handed to `write_json`.  The fetch step is reached only when the
env check succeeded, and the file write happens only from the
`Except.ok` outcome.
-/
def runMain (env : Env) (resp : HttpResponse) : Except SyncErr (List FileInfo) :=
  match get_env_vars env with
  | Except.error e => Except.error e
  | Except.ok _ =>
    match fetch_messages resp with
    | Except.error e => Except.error e
    | Except.ok msgs => sortAttachmentsE (extract_attachments msgs)

/-- Process exit status of a run: 0 on success, 1 on any fatal outcome. -/
def exitCodeOf (r : Except SyncErr (List FileInfo)) : Nat :=
  match r with
  | Except.ok _ => 0
  | Except.error _ => 1

/-- Low hexadecimal digit character of a value below 16. -/
def natHexDigit (n : Nat) : Char :=
  if n < 10 then Char.ofNat (48 + n) else Char.ofNat (87 + n)

/-- JSON `\u00XX` escape for a control character code `n < 32`. -/
def uEscape (n : Nat) : String :=
  String.mk ['\\', 'u', '0', '0', natHexDigit (n / 16), natHexDigit (n % 16)]

/--
Character escaping of Python's `json.dump` with `ensure_ascii=False`:
quote, backslash and control characters are escaped, every other
character - in particular everything at code point 32 and above,
non-ASCII included - is emitted verbatim.
-/
def jsonEscapeChar (c : Char) : String :=
  if c = '"' then "\\\""
  else if c = '\\' then "\\\\"
  else if c = '\n' then "\\n"
  else if c = '\t' then "\\t"
  else if c = '\r' then "\\r"
  else if c.toNat = 8 then "\\b"
  else if c.toNat = 12 then "\\f"
  else if c.toNat < 32 then uEscape c.toNat
  else String.singleton c

/-- A JSON string literal, quoted and escaped. -/
def jsonStr (s : String) : String :=
  "\"" ++ String.join (s.data.map jsonEscapeChar) ++ "\""

/-- A JSON scalar of the output record: a string or a non-negative integer. -/
inductive JVal where
  | s (v : String)
  | n (v : Nat)
deriving DecidableEq, Repr

/-- Rendering of one scalar. -/
def jvalRender : JVal → String
  | JVal.s v => jsonStr v
  | JVal.n v => Nat.repr v

/--
The key/value pairs of one serialized record, in the insertion order
of the `file_info` dict literal (lines 105-112); `json.dump` is called
with `sort_keys=False`, so this order is the serialization order.
-/
def recordFields (r : FileInfo) : List (String × JVal) :=
  [("name", JVal.s r.name),
   ("url", JVal.s r.url),
   ("uploaded_at", JVal.s r.uploaded_at),
   ("author", JVal.s r.author),
   ("size", JVal.n r.size),
   ("content_type", JVal.s r.content_type)]

/-- One `"key": value` line of an object member, at 4-space indentation. -/
def renderField (f : String × JVal) : String :=
  "    " ++ jsonStr f.1 ++ ": " ++ jvalRender f.2

/-- One record object, at 2-space indentation. -/
def renderRecord (r : FileInfo) : String :=
  "  \x7b\n" ++ String.intercalate ",\n" ((recordFields r).map renderField) ++ "\n  \x7d"

/--
The file content produced by `json.dump(attachments, f, indent=2,
ensure_ascii=False, sort_keys=False)`: `[]` for the empty list,
otherwise a 2-space-indented array of objects.
-/
def dumpJson (attachments : List FileInfo) : String :=
  if attachments.isEmpty then "[]"
  else "[\n" ++ String.intercalate ",\n" (attachments.map renderRecord) ++ "\n]"

/--
The filesystem effect of `write_json` (lines 138-153): `mkdirParents`
records the `output_path.parent.mkdir(parents=True, exist_ok=True)`
call, `content` the bytes written, `reportedCount` the entry count
printed afterwards.
-/
structure WriteAction where
  mkdirParents : Bool
  content : String
  reportedCount : Nat
deriving DecidableEq, Repr

/-- `write_json` as the description of its filesystem effect. -/
def write_json (attachments : List FileInfo) : WriteAction :=
  ⟨true, dumpJson attachments, attachments.length⟩

/--
Content of the output file after `write_json`, given its previous
content; `open(output_path, "w")` truncates unconditionally, so the
previous content is ignored.
-/
def fileAfterWrite (_previous : Option String) (attachments : List FileInfo) : String :=
  dumpJson attachments

/--
Content of the output file after a whole run: `write_json` is the last
stage of `main`, so the file is rewritten exactly when every earlier
stage succeeded, and keeps its previous content on every fatal path.
-/
def fileAfterRun (env : Env) (resp : HttpResponse) (previous : Option String) :
    Option String :=
  match runMain env resp with
  | Except.ok atts => some (dumpJson atts)
  | Except.error _ => previous

/--
Extractor written from the specification's words, for comparison with
`extract_attachments`: one record per attachment, in message order
then attachment order, with the field defaults of the spec; a message
with an absent or empty attachments list contributes nothing (its map
is empty), and no filtering of any kind is applied.
-/
def specExtract (messages : List Message) : List FileInfo :=
  (messages.map fun msg =>
    msg.attachments.map fun a =>
      { name := a.filename.getD "unknown"
        url := a.url.getD ""
        uploaded_at := msg.timestamp.getD ""
        author := orElseStr ((msg.author.getD ⟨none, none⟩).global_name)
            (orElseStr ((msg.author.getD ⟨none, none⟩).username) "Unknown")
        size := a.size.getD 0
        content_type := a.content_type.getD ""
        : FileInfo }).flatten

/--
The parsing path of `parse_timestamp` with the two identical branches
of the `"." in ts` test unified into one, as the spec says an
implementer may do.
-/
def parseTimestampStrUnified (ts : String) : PyDateTime :=
  if ts ≠ "" then (fromisoformatOpt (pyReplaceZ ts)).getD datetimeMin
  else datetimeMin

/-- The sorter with the unified parsing path substituted for `parse_timestamp`. -/
def sortAttachmentsUnified (attachments : List FileInfo) : Except String (List FileInfo) :=
  if keysComparable (attachments.map fun x => parseTimestampStrUnified x.uploaded_at) then
    Except.ok (isortDescBy (fun x => parseTimestampStrUnified x.uploaded_at) attachments)
  else Except.error naiveAwareTypeError

/-- Fixture: a record whose timestamp parses to an aware datetime. -/
def recValidTs : FileInfo :=
  ⟨"a.txt", "https://cdn.example/a.txt", "2024-01-01T00:00:00+00:00", "Alice", 10, "text/plain"⟩

/-- Fixture: a record with an empty (unparseable) timestamp. -/
def recEmptyTs : FileInfo :=
  ⟨"b.txt", "https://cdn.example/b.txt", "", "Bob", 20, "text/plain"⟩

/-- Fixture: attachment of the January message of the spec's scenario. -/
def attJan : AttachmentObj :=
  ⟨some "a.png", some "https://cdn.example/a.png", some 100, some "image/png"⟩

/-- Fixture: attachment of the June message of the spec's scenario. -/
def attJun : AttachmentObj :=
  ⟨some "b.png", some "https://cdn.example/b.png", some 200, some "image/png"⟩

/-- Fixture: first scenario message, timestamp with fractional seconds. -/
def msgJan : Message :=
  ⟨some ⟨some "Alice", some "alice"⟩, some "2024-01-01T00:00:00.000000+00:00", [attJan]⟩

/-- Fixture: second scenario message, timestamp with a trailing Z. -/
def msgJun : Message :=
  ⟨some ⟨some "Bob", some "bob"⟩, some "2024-06-01T12:00:00Z", [attJun]⟩

/-- Fixture: the record extracted from `msgJan`. -/
def recJan : FileInfo :=
  ⟨"a.png", "https://cdn.example/a.png", "2024-01-01T00:00:00.000000+00:00", "Alice", 100, "image/png"⟩

/-- Fixture: the record extracted from `msgJun`. -/
def recJun : FileInfo :=
  ⟨"b.png", "https://cdn.example/b.png", "2024-06-01T12:00:00Z", "Bob", 200, "image/png"⟩

/--
Rendering of a calendar timestamp `YYYY-MM-DDTHH:MM:SS` from its
fourteen component characters; every Discord-style timestamp instant
is this rendering at digit characters.
-/
def isoCore (y1 y2 y3 y4 mo1 mo2 d1 d2 h1 h2 mi1 mi2 s1 s2 : Char) : List Char :=
  [y1, y2, y3, y4, '-', mo1, mo2, '-', d1, d2, 'T', h1, h2, ':', mi1, mi2, ':', s1, s2]

/-- The `.000000` block that writes the same instant with explicit zero microseconds. -/
def fracZeros : List Char := ['.', '0', '0', '0', '0', '0', '0']

/-- Rendering of an optional `±HH:MM` offset suffix from its sign and digit characters. -/
def tzRender : Option (Char × Char × Char × Char × Char) → List Char
  | none => []
  | some (sgn, o1, o2, o3, o4) => [sgn, o1, o2, ':', o3, o4]

/-- The offset suffix is well-signed: absent, or led by `+` or `-`. -/
def tzSignOk : Option (Char × Char × Char × Char × Char) → Prop
  | none => True
  | some (sgn, _, _, _, _) => sgn = '+' ∨ sgn = '-'

theorem replaceZL_append (a b : List Char) :
    replaceZL (a ++ b) = replaceZL a ++ replaceZL b := by
  induction a with
  | nil => rfl
  | cons c r ih => simp [replaceZL, ih, List.append_assoc]

theorem replaceZL_idem (l : List Char) : replaceZL (replaceZL l) = replaceZL l := by
  induction l with
  | nil => rfl
  | cons c r ih =>
    by_cases hc : c = 'Z'
    · subst hc
      show replaceZL (['+', '0', '0', ':', '0', '0'] ++ replaceZL r)
          = ['+', '0', '0', ':', '0', '0'] ++ replaceZL r
      rw [replaceZL_append, ih]
      rfl
    · simp [replaceZL, hc, ih]

theorem hasDotL_append (a b : List Char) :
    hasDotL (a ++ b) = (hasDotL a || hasDotL b) := by
  induction a with
  | nil => rfl
  | cons c r ih => simp [hasDotL, ih, Bool.or_assoc]

theorem hasDotL_replaceZL (l : List Char) : hasDotL (replaceZL l) = hasDotL l := by
  induction l with
  | nil => rfl
  | cons c r ih =>
    by_cases hc : c = 'Z'
    · subst hc
      show hasDotL (['+', '0', '0', ':', '0', '0'] ++ replaceZL r) = hasDotL ('Z' :: r)
      rw [hasDotL_append, ih]
      rfl
    · simp [replaceZL, hasDotL, hc, ih]

theorem replaceZL_ne_nil (c : Char) (r : List Char) : replaceZL (c :: r) ≠ [] := by
  by_cases hc : c = 'Z' <;> simp [replaceZL, hc]

theorem pyReplaceZ_ne_empty {ts : String} (h : ts ≠ "") : pyReplaceZ ts ≠ "" := by
  intro hz
  apply h
  have hd : replaceZL ts.data = ([] : List Char) := congrArg String.data hz
  cases hts : ts.data with
  | nil =>
    cases ts with
    | mk d => cases hts; rfl
  | cons c r =>
    rw [hts] at hd
    exact absurd hd (replaceZL_ne_nil c r)

theorem pyReplaceZ_idem (ts : String) : pyReplaceZ (pyReplaceZ ts) = pyReplaceZ ts :=
  congrArg String.mk (replaceZL_idem ts.data)

theorem parseTimestampStr_eq_unified (ts : String) :
    parseTimestampStr ts = parseTimestampStrUnified ts := by
  simp only [parseTimestampStr, parseTimestampStrUnified, parseBranchWithDot,
    parseBranchNoDot, ite_self]

theorem parseTimestampStr_replaceZ (ts : String) :
    parseTimestampStr (pyReplaceZ ts) = parseTimestampStr ts := by
  rw [parseTimestampStr_eq_unified, parseTimestampStr_eq_unified]
  unfold parseTimestampStrUnified
  by_cases he : ts = ""
  · subst he; rfl
  · rw [if_pos (pyReplaceZ_ne_empty he), if_pos he, pyReplaceZ_idem]

theorem isTzChar_of_isDigit (c : Char) (h : c.isDigit = true) : isTzChar c = false := by
  have h1 : c ≠ 'Z' := fun he => absurd (he ▸ h) (by decide)
  have h2 : c ≠ '+' := fun he => absurd (he ▸ h) (by decide)
  have h3 : c ≠ '-' := fun he => absurd (he ▸ h) (by decide)
  simp [isTzChar, h1, h2, h3]

theorem splitAtTz_none (l : List Char) (h : l.all (fun c => !isTzChar c) = true) :
    splitAtTz l = (l, none) := by
  induction l with
  | nil => rfl
  | cons c r ih =>
    simp only [List.all_cons, Bool.and_eq_true, Bool.not_eq_true'] at h
    simp [splitAtTz, h.1, ih h.2]

theorem splitAtTz_append (a b : List Char) (h : a.all (fun c => !isTzChar c) = true) :
    splitAtTz (a ++ b) = (a ++ (splitAtTz b).1, (splitAtTz b).2) := by
  induction a with
  | nil => simp
  | cons c r ih =>
    simp only [List.all_cons, Bool.and_eq_true, Bool.not_eq_true'] at h
    simp [splitAtTz, h.1, ih h.2]

theorem parseHMSF_hhmmss (tzb : Bool) (h1 h2 mi1 mi2 s1 s2 : Char) (rest : List Char)
    (hh1 : h1.isDigit = true) (hh2 : h2.isDigit = true)
    (hm1 : mi1.isDigit = true) (hm2 : mi2.isDigit = true) :
    parseHMSF tzb (h1 :: h2 :: ':' :: mi1 :: mi2 :: ':' :: s1 :: s2 :: rest)
      = hmsSec tzb true (digitVal h1 * 10 + digitVal h2)
          (digitVal mi1 * 10 + digitVal mi2) (s1 :: s2 :: rest) := by
  simp [parseHMSF, parse2, num2, hh1, hh2, hmsMin, hm1, hm2]

theorem hmsSec_nilTail (tzb : Bool) (hv mv : Nat) (s1 s2 : Char)
    (hs1 : s1.isDigit = true) (hs2 : s2.isDigit = true) :
    hmsSec tzb true hv mv [s1, s2]
      = some (hv, mv, digitVal s1 * 10 + digitVal s2, 0) := by
  simp [hmsSec, parse2, num2, hs1, hs2]

theorem hmsSec_fracZeros (tzb : Bool) (hv mv : Nat) (s1 s2 : Char)
    (hs1 : s1.isDigit = true) (hs2 : s2.isDigit = true) :
    hmsSec tzb true hv mv (s1 :: s2 :: fracZeros)
      = some (hv, mv, digitVal s1 * 10 + digitVal s2, 0) := by
  simp [hmsSec, parse2, num2, hs1, hs2, fracZeros, hmsFrac, digitsToNat, digitVal]

theorem parseIsoTime_fracZeros (h1 h2 mi1 mi2 s1 s2 : Char)
    (z : Option (Char × Char × Char × Char × Char))
    (hh1 : h1.isDigit = true) (hh2 : h2.isDigit = true)
    (hm1 : mi1.isDigit = true) (hm2 : mi2.isDigit = true)
    (hs1 : s1.isDigit = true) (hs2 : s2.isDigit = true) (hz : tzSignOk z) :
    parseIsoTime ([h1, h2, ':', mi1, mi2, ':', s1, s2] ++ (fracZeros ++ tzRender z))
      = parseIsoTime ([h1, h2, ':', mi1, mi2, ':', s1, s2] ++ tzRender z) := by
  have hall8 : ([h1, h2, ':', mi1, mi2, ':', s1, s2]).all (fun c => !isTzChar c) = true := by
    simp [isTzChar_of_isDigit _ hh1, isTzChar_of_isDigit _ hh2, isTzChar_of_isDigit _ hm1,
      isTzChar_of_isDigit _ hm2, isTzChar_of_isDigit _ hs1, isTzChar_of_isDigit _ hs2,
      show isTzChar ':' = false from rfl]
  have hallF : ([h1, h2, ':', mi1, mi2, ':', s1, s2] ++ fracZeros).all
      (fun c => !isTzChar c) = true := by
    simp [fracZeros, isTzChar_of_isDigit _ hh1, isTzChar_of_isDigit _ hh2,
      isTzChar_of_isDigit _ hm1, isTzChar_of_isDigit _ hm2, isTzChar_of_isDigit _ hs1,
      isTzChar_of_isDigit _ hs2, show isTzChar ':' = false from rfl,
      show isTzChar '.' = false from rfl, show isTzChar '0' = false from rfl]
  rcases z with _ | ⟨sgn, o1, o2, o3, o4⟩
  · rw [show tzRender none = [] from rfl, List.append_nil, List.append_nil]
    unfold parseIsoTime
    rw [splitAtTz_none _ hallF, splitAtTz_none _ hall8]
    dsimp only
    rw [show ([h1, h2, ':', mi1, mi2, ':', s1, s2] ++ fracZeros : List Char)
        = h1 :: h2 :: ':' :: mi1 :: mi2 :: ':' :: s1 :: s2 :: fracZeros from rfl,
      show ([h1, h2, ':', mi1, mi2, ':', s1, s2] : List Char)
        = h1 :: h2 :: ':' :: mi1 :: mi2 :: ':' :: s1 :: s2 :: ([] : List Char) from rfl]
    rw [parseHMSF_hhmmss _ _ _ _ _ _ _ _ hh1 hh2 hm1 hm2,
      parseHMSF_hhmmss _ _ _ _ _ _ _ _ hh1 hh2 hm1 hm2,
      hmsSec_fracZeros _ _ _ _ _ hs1 hs2, hmsSec_nilTail _ _ _ _ _ hs1 hs2]
  · have hsplit : splitAtTz (tzRender (some (sgn, o1, o2, o3, o4)))
        = ([], some (sgn, [o1, o2, ':', o3, o4])) := by
      rcases hz with h | h <;> subst h <;> rfl
    unfold parseIsoTime
    rw [show ([h1, h2, ':', mi1, mi2, ':', s1, s2] : List Char)
          ++ (fracZeros ++ tzRender (some (sgn, o1, o2, o3, o4)))
        = ([h1, h2, ':', mi1, mi2, ':', s1, s2] ++ fracZeros)
          ++ tzRender (some (sgn, o1, o2, o3, o4)) from (List.append_assoc _ _ _).symm]
    rw [splitAtTz_append _ _ hallF, splitAtTz_append _ _ hall8, hsplit]
    dsimp only
    simp only [List.append_nil]
    rw [show ([h1, h2, ':', mi1, mi2, ':', s1, s2] ++ fracZeros : List Char)
        = h1 :: h2 :: ':' :: mi1 :: mi2 :: ':' :: s1 :: s2 :: fracZeros from rfl,
      show ([h1, h2, ':', mi1, mi2, ':', s1, s2] : List Char)
        = h1 :: h2 :: ':' :: mi1 :: mi2 :: ':' :: s1 :: s2 :: ([] : List Char) from rfl]
    rw [parseHMSF_hhmmss _ _ _ _ _ _ _ _ hh1 hh2 hm1 hm2,
      parseHMSF_hhmmss _ _ _ _ _ _ _ _ hh1 hh2 hm1 hm2,
      hmsSec_fracZeros _ _ _ _ _ hs1 hs2, hmsSec_nilTail _ _ _ _ _ hs1 hs2]

theorem parseIsoTime_Z_eq (h1 h2 mi1 mi2 s1 s2 : Char)
    (hh1 : h1.isDigit = true) (hh2 : h2.isDigit = true)
    (hm1 : mi1.isDigit = true) (hm2 : mi2.isDigit = true)
    (hs1 : s1.isDigit = true) (hs2 : s2.isDigit = true) :
    parseIsoTime ([h1, h2, ':', mi1, mi2, ':', s1, s2] ++ ['Z'])
      = parseIsoTime ([h1, h2, ':', mi1, mi2, ':', s1, s2] ++ ['+', '0', '0', ':', '0', '0']) := by
  have hall8 : ([h1, h2, ':', mi1, mi2, ':', s1, s2]).all (fun c => !isTzChar c) = true := by
    simp [isTzChar_of_isDigit _ hh1, isTzChar_of_isDigit _ hh2, isTzChar_of_isDigit _ hm1,
      isTzChar_of_isDigit _ hm2, isTzChar_of_isDigit _ hs1, isTzChar_of_isDigit _ hs2,
      show isTzChar ':' = false from rfl]
  unfold parseIsoTime
  rw [splitAtTz_append _ _ hall8, splitAtTz_append _ _ hall8,
    show splitAtTz ['Z'] = ([], some ('Z', [])) from rfl,
    show splitAtTz ['+', '0', '0', ':', '0', '0']
      = ([], some ('+', ['0', '0', ':', '0', '0'])) from rfl]
  dsimp only
  simp only [List.append_nil, Option.isSome_some]
  rw [show ([h1, h2, ':', mi1, mi2, ':', s1, s2] : List Char)
      = h1 :: h2 :: ':' :: mi1 :: mi2 :: ':' :: s1 :: s2 :: ([] : List Char) from rfl,
    parseHMSF_hhmmss _ _ _ _ _ _ _ _ hh1 hh2 hm1 hm2,
    hmsSec_nilTail _ _ _ _ _ hs1 hs2]
  rfl

theorem parseIso_isoCore_congr (y1 y2 y3 y4 mo1 mo2 d1 d2 h1 h2 mi1 mi2 s1 s2 : Char)
    (t1 t2 : List Char) (hW : mo1 ≠ 'W')
    (ht : parseIsoTime ([h1, h2, ':', mi1, mi2, ':', s1, s2] ++ t1)
        = parseIsoTime ([h1, h2, ':', mi1, mi2, ':', s1, s2] ++ t2)) :
    parseIso (isoCore y1 y2 y3 y4 mo1 mo2 d1 d2 h1 h2 mi1 mi2 s1 s2 ++ t1)
      = parseIso (isoCore y1 y2 y3 y4 mo1 mo2 d1 d2 h1 h2 mi1 mi2 s1 s2 ++ t2) := by
  have hsep : ∀ rest : List Char,
      findSeparatorLoc (isoCore y1 y2 y3 y4 mo1 mo2 d1 d2 h1 h2 mi1 mi2 s1 s2 ++ rest)
        = some 10 := by
    intro rest
    unfold findSeparatorLoc
    have h7 : ¬ ((isoCore y1 y2 y3 y4 mo1 mo2 d1 d2 h1 h2 mi1 mi2 s1 s2 ++ rest).length = 7) := by
      simp only [isoCore, List.length_append, List.length_cons, List.length_nil]
      omega
    rw [if_neg h7,
      show (isoCore y1 y2 y3 y4 mo1 mo2 d1 d2 h1 h2 mi1 mi2 s1 s2 ++ rest).getD 4 ' '
        = '-' from rfl, if_pos rfl,
      show (isoCore y1 y2 y3 y4 mo1 mo2 d1 d2 h1 h2 mi1 mi2 s1 s2 ++ rest).getD 5 ' '
        = mo1 from rfl, if_neg hW]
  have hL1 : ¬ ((isoCore y1 y2 y3 y4 mo1 mo2 d1 d2 h1 h2 mi1 mi2 s1 s2 ++ t1).length < 7) := by
    simp only [isoCore, List.length_append, List.length_cons, List.length_nil]
    omega
  have hL2 : ¬ ((isoCore y1 y2 y3 y4 mo1 mo2 d1 d2 h1 h2 mi1 mi2 s1 s2 ++ t2).length < 7) := by
    simp only [isoCore, List.length_append, List.length_cons, List.length_nil]
    omega
  unfold parseIso
  rw [if_neg hL1, if_neg hL2, hsep t1, hsep t2]
  dsimp only [Option.bind]
  rw [show (isoCore y1 y2 y3 y4 mo1 mo2 d1 d2 h1 h2 mi1 mi2 s1 s2 ++ t1).take 10
      = [y1, y2, y3, y4, '-', mo1, mo2, '-', d1, d2] from rfl,
    show (isoCore y1 y2 y3 y4 mo1 mo2 d1 d2 h1 h2 mi1 mi2 s1 s2 ++ t2).take 10
      = [y1, y2, y3, y4, '-', mo1, mo2, '-', d1, d2] from rfl,
    show (isoCore y1 y2 y3 y4 mo1 mo2 d1 d2 h1 h2 mi1 mi2 s1 s2 ++ t1).drop 10
      = 'T' :: ([h1, h2, ':', mi1, mi2, ':', s1, s2] ++ t1) from rfl,
    show (isoCore y1 y2 y3 y4 mo1 mo2 d1 d2 h1 h2 mi1 mi2 s1 s2 ++ t2).drop 10
      = 'T' :: ([h1, h2, ':', mi1, mi2, ':', s1, s2] ++ t2) from rfl]
  cases hd : parseIsoDate [y1, y2, y3, y4, '-', mo1, mo2, '-', d1, d2] with
  | none => rfl
  | some ymd =>
    obtain ⟨yv, mov, dv⟩ := ymd
    dsimp only
    rw [ht]

/--
C1: the claim says `sort_attachments` always returns the records in
descending effective-timestamp order with unparseable timestamps
(keyed `datetime.min`) sorted after all valid ones.  The code instead
crashes: `datetime.min` is timezone-naive while a parsed Discord
timestamp is timezone-aware, and `sorted` raises an uncaught
`TypeError` when it compares the two keys.  This theorem evaluates the
code at the failing input: `recValidTs` parses to an aware datetime,
`recEmptyTs` falls back to `datetime.min`, and sorting the two-element
list is a `TypeError` crash instead of the claimed `[recValidTs,
recEmptyTs]` ordering.
-/
theorem claim_C1_sorter_crashes_on_mixed_validity :
    isAware (parse_timestamp recValidTs) = true ∧
    parse_timestamp recEmptyTs = datetimeMin ∧
    sort_attachments [recValidTs, recEmptyTs] = Except.error naiveAwareTypeError :=
  ⟨rfl, rfl, rfl⟩

/--
C2: the sorter's parsing path is insensitive to rewriting `Z` as
`+00:00` (first conjunct, for every input string); for every instant —
all fourteen component characters of `YYYY-MM-DDTHH:MM:SS` and any
optional signed offset suffix — the rendering with `.000000`
fractional seconds and the rendering without parse identically (second
conjunct), and the rendering with a trailing `Z` parses identically to
the one with a `+00:00` offset (third conjunct); the three concrete
renderings of the scenario instant agree, and on the spec's
two-message scenario the June attachment comes out first.
-/
theorem claim_C2_timestamp_forms_equivalent :
    (∀ ts : String, parseTimestampStr (pyReplaceZ ts) = parseTimestampStr ts) ∧
    (∀ (y1 y2 y3 y4 mo1 mo2 d1 d2 h1 h2 mi1 mi2 s1 s2 : Char)
       (z : Option (Char × Char × Char × Char × Char)),
      mo1.isDigit = true → h1.isDigit = true → h2.isDigit = true →
      mi1.isDigit = true → mi2.isDigit = true → s1.isDigit = true → s2.isDigit = true →
      tzSignOk z →
      parseIso (isoCore y1 y2 y3 y4 mo1 mo2 d1 d2 h1 h2 mi1 mi2 s1 s2
          ++ (fracZeros ++ tzRender z))
        = parseIso (isoCore y1 y2 y3 y4 mo1 mo2 d1 d2 h1 h2 mi1 mi2 s1 s2
          ++ tzRender z)) ∧
    (∀ y1 y2 y3 y4 mo1 mo2 d1 d2 h1 h2 mi1 mi2 s1 s2 : Char,
      mo1.isDigit = true → h1.isDigit = true → h2.isDigit = true →
      mi1.isDigit = true → mi2.isDigit = true → s1.isDigit = true → s2.isDigit = true →
      parseIso (isoCore y1 y2 y3 y4 mo1 mo2 d1 d2 h1 h2 mi1 mi2 s1 s2 ++ ['Z'])
        = parseIso (isoCore y1 y2 y3 y4 mo1 mo2 d1 d2 h1 h2 mi1 mi2 s1 s2
          ++ ['+', '0', '0', ':', '0', '0'])) ∧
    parseTimestampStr "2024-06-01T12:00:00.000000+00:00"
      = parseTimestampStr "2024-06-01T12:00:00+00:00" ∧
    parseTimestampStr "2024-06-01T12:00:00Z"
      = parseTimestampStr "2024-06-01T12:00:00+00:00" ∧
    sort_attachments (extract_attachments [msgJan, msgJun])
      = Except.ok [recJun, recJan] := by
  refine ⟨parseTimestampStr_replaceZ, ?_, ?_, rfl, rfl, rfl⟩
  · intro y1 y2 y3 y4 mo1 mo2 d1 d2 h1 h2 mi1 mi2 s1 s2 z hmo1 hh1 hh2 hm1 hm2 hs1 hs2 hz
    exact parseIso_isoCore_congr y1 y2 y3 y4 mo1 mo2 d1 d2 h1 h2 mi1 mi2 s1 s2
      (fracZeros ++ tzRender z) (tzRender z)
      (fun he => absurd (he ▸ hmo1) (by decide))
      (parseIsoTime_fracZeros h1 h2 mi1 mi2 s1 s2 z hh1 hh2 hm1 hm2 hs1 hs2 hz)
  · intro y1 y2 y3 y4 mo1 mo2 d1 d2 h1 h2 mi1 mi2 s1 s2 hmo1 hh1 hh2 hm1 hm2 hs1 hs2
    exact parseIso_isoCore_congr y1 y2 y3 y4 mo1 mo2 d1 d2 h1 h2 mi1 mi2 s1 s2
      ['Z'] ['+', '0', '0', ':', '0', '0']
      (fun he => absurd (he ▸ hmo1) (by decide))
      (parseIsoTime_Z_eq h1 h2 mi1 mi2 s1 s2 hh1 hh2 hm1 hm2 hs1 hs2)

/--
Witness for C2, at the instant 2024-06-01 12:30:45 with a `+05:30`
offset suffix.
-/
theorem claim_C2_witness :
    parseIso (isoCore '2' '0' '2' '4' '0' '6' '0' '1' '1' '2' '3' '0' '4' '5'
        ++ (fracZeros ++ tzRender (some ('+', '0', '5', '3', '0'))))
      = parseIso (isoCore '2' '0' '2' '4' '0' '6' '0' '1' '1' '2' '3' '0' '4' '5'
        ++ tzRender (some ('+', '0', '5', '3', '0'))) :=
  claim_C2_timestamp_forms_equivalent.2.1 '2' '0' '2' '4' '0' '6' '0' '1' '1' '2' '3' '0' '4' '5'
    (some ('+', '0', '5', '3', '0')) (by decide) (by decide) (by decide) (by decide)
    (by decide) (by decide) (by decide) (Or.inl rfl)

/--
C3: the extractor equals the spec-shaped extractor: a message with an
absent or empty attachments list contributes no records, every other
message contributes one record per attachment in message order then
attachment order with the claimed field defaults, and nothing is
filtered.
-/
theorem claim_C3_extractor_shape (msgs : List Message) :
    extract_attachments msgs = specExtract msgs := by
  induction msgs with
  | nil => rfl
  | cons m rest ih =>
    by_cases h : m.attachments.isEmpty = true
    · have hm : m.attachments = [] := by
        cases hm0 : m.attachments with
        | nil => rfl
        | cons a r => rw [hm0] at h; simp at h
      simp [extract_attachments, specExtract, h, hm] at ih ⊢
      exact ih
    · simp only [extract_attachments, h, if_false, Bool.false_eq_true, ite_false,
        specExtract, List.map_cons, List.flatten_cons]
      rw [ih]
      rfl

/--
C5: with a missing or empty bot token the run fails with the error
message naming `DISCORD_BOT_TOKEN`; with a present token but a missing
or empty channel id it fails with the message naming
`DISCORD_CHANNEL_ID`.  In both cases the outcome is the same for every
HTTP response (the fetch is never consulted, i.e. no network call is
attempted), the exit status is non-zero, and the output file keeps its
previous content.
-/
theorem claim_C5_env_validation :
    (∀ (env : Env) (resp : HttpResponse) (prev : Option String),
      falsyStr env.token = true →
        runMain env resp = Except.error
          (SyncErr.missingEnv "ERROR: DISCORD_BOT_TOKEN environment variable not set") ∧
        exitCodeOf (runMain env resp) = 1 ∧
        fileAfterRun env resp prev = prev) ∧
    (∀ (env : Env) (resp : HttpResponse) (prev : Option String),
      falsyStr env.token = false → falsyStr env.channel_id = true →
        runMain env resp = Except.error
          (SyncErr.missingEnv "ERROR: DISCORD_CHANNEL_ID environment variable not set") ∧
        exitCodeOf (runMain env resp) = 1 ∧
        fileAfterRun env resp prev = prev) := by
  constructor
  · intro env resp prev h
    have hg : get_env_vars env = Except.error
        (SyncErr.missingEnv "ERROR: DISCORD_BOT_TOKEN environment variable not set") := by
      simp [get_env_vars, h]
    have hrun : runMain env resp = Except.error
        (SyncErr.missingEnv "ERROR: DISCORD_BOT_TOKEN environment variable not set") := by
      simp [runMain, hg]
    exact ⟨hrun, by simp [exitCodeOf, hrun], by simp [fileAfterRun, hrun]⟩
  · intro env resp prev h1 h2
    have hg : get_env_vars env = Except.error
        (SyncErr.missingEnv "ERROR: DISCORD_CHANNEL_ID environment variable not set") := by
      simp [get_env_vars, h1, h2]
    have hrun : runMain env resp = Except.error
        (SyncErr.missingEnv "ERROR: DISCORD_CHANNEL_ID environment variable not set") := by
      simp [runMain, hg]
    exact ⟨hrun, by simp [exitCodeOf, hrun], by simp [fileAfterRun, hrun]⟩

/-- Witness for C5, at an environment with a token but no channel id. -/
theorem claim_C5_witness :
    runMain ⟨some "tok", none⟩ ⟨200, Except.ok [], ""⟩ = Except.error
      (SyncErr.missingEnv "ERROR: DISCORD_CHANNEL_ID environment variable not set") ∧
    exitCodeOf (runMain ⟨some "tok", none⟩ ⟨200, Except.ok [], ""⟩) = 1 ∧
    fileAfterRun ⟨some "tok", none⟩ ⟨200, Except.ok [], ""⟩ (some "old") = some "old" :=
  claim_C5_env_validation.2 ⟨some "tok", none⟩ ⟨200, Except.ok [], ""⟩ (some "old") rfl rfl

/--
C6: the status dispatch of `fetch_messages`: 200 returns the parsed
JSON array; 401, 403 and 404 fail with their specific messages; every
other status fails reporting the numeric status and the raw body; and
whenever the fetch fails the whole run fails (`exit 1`) and the output
file keeps its previous content.
-/
theorem claim_C6_http_status_dispatch :
    (∀ (resp : HttpResponse) (msgs : List Message),
      resp.status = 200 → resp.jsonBody = Except.ok msgs →
        fetch_messages resp = Except.ok msgs) ∧
    (∀ resp : HttpResponse, resp.status = 401 →
      fetch_messages resp = Except.error
        (SyncErr.httpError "ERROR: Invalid bot token (401 Unauthorized)")) ∧
    (∀ resp : HttpResponse, resp.status = 403 →
      fetch_messages resp = Except.error
        (SyncErr.httpError "ERROR: Bot lacks permission to read this channel (403 Forbidden)")) ∧
    (∀ resp : HttpResponse, resp.status = 404 →
      fetch_messages resp = Except.error
        (SyncErr.httpError "ERROR: Channel not found (404 Not Found)")) ∧
    (∀ resp : HttpResponse, resp.status ≠ 200 → resp.status ≠ 401 →
      resp.status ≠ 403 → resp.status ≠ 404 →
        fetch_messages resp = Except.error (SyncErr.apiError resp.status resp.text)) ∧
    (∀ (env : Env) (resp : HttpResponse) (prev : Option String) (e : SyncErr),
      fetch_messages resp = Except.error e →
        exitCodeOf (runMain env resp) = 1 ∧ fileAfterRun env resp prev = prev) := by
  refine ⟨?_, ?_, ?_, ?_, ?_, ?_⟩
  · intro resp msgs h hj
    simp [fetch_messages, h, hj]
  · intro resp h
    simp [fetch_messages, h]
  · intro resp h
    simp [fetch_messages, h]
  · intro resp h
    simp [fetch_messages, h]
  · intro resp h200 h401 h403 h404
    simp [fetch_messages, h200, h401, h403, h404]
  · intro env resp prev e hf
    cases hg : get_env_vars env with
    | error e2 =>
      have hrun : runMain env resp = Except.error e2 := by simp [runMain, hg]
      exact ⟨by simp [exitCodeOf, hrun], by simp [fileAfterRun, hrun]⟩
    | ok cred =>
      have hrun : runMain env resp = Except.error e := by simp [runMain, hg, hf]
      exact ⟨by simp [exitCodeOf, hrun], by simp [fileAfterRun, hrun]⟩

/-- Witness for C6, at a 403 response inside a fully-set environment. -/
theorem claim_C6_witness :
    fetch_messages ⟨403, Except.ok [], ""⟩ = Except.error
      (SyncErr.httpError "ERROR: Bot lacks permission to read this channel (403 Forbidden)") ∧
    exitCodeOf (runMain ⟨some "tok", some "chan"⟩ ⟨403, Except.ok [], ""⟩) = 1 ∧
    fileAfterRun ⟨some "tok", some "chan"⟩ ⟨403, Except.ok [], ""⟩ (some "prev") = some "prev" := by
  have hfetch := claim_C6_http_status_dispatch.2.2.1 ⟨403, Except.ok [], ""⟩ rfl
  have hrest := claim_C6_http_status_dispatch.2.2.2.2.2 ⟨some "tok", some "chan"⟩
    ⟨403, Except.ok [], ""⟩ (some "prev") _ hfetch
  exact ⟨hfetch, hrest⟩

/--
C7: the `limit` query parameter sent by `fetch_messages` is
`min(limit, 100)`: any caller-supplied value above 100 is clamped down
to 100, any value at most 100 is sent unchanged, and the default is
100.
-/
theorem claim_C7_limit_clamped :
    fetchLimitDefault = 100 ∧
    (∀ limit : Int, 100 < limit → requestLimitParam limit = 100) ∧
    (∀ limit : Int, limit ≤ 100 → requestLimitParam limit = limit) := by
  refine ⟨rfl, ?_, ?_⟩ <;> intro l h <;> simp [requestLimitParam] <;> omega

/-- Witness for C7, at the over-limit value 250. -/
theorem claim_C7_witness : requestLimitParam 250 = 100 :=
  claim_C7_limit_clamped.2.1 250 (by decide)

/--
C8: the writer creates missing parent directories, overwrites the
destination unconditionally (the new content never depends on the
previous content), serializes with 2-space indentation and the
insertion key order name, url, uploaded_at, author, size,
content_type, leaves every character at code point 128 and above
unescaped, writes `[]` for the empty list, and reports the entry
count.
-/
theorem claim_C8_writer_format :
    (∀ (prev : Option String) (atts : List FileInfo),
      fileAfterWrite prev atts = dumpJson atts) ∧
    (∀ atts : List FileInfo, (write_json atts).mkdirParents = true) ∧
    (∀ r : FileInfo, (recordFields r).map Prod.fst
      = ["name", "url", "uploaded_at", "author", "size", "content_type"]) ∧
    dumpJson [recValidTs]
      = "[\n  \x7b\n    \"name\": \"a.txt\",\n    \"url\": \"https://cdn.example/a.txt\",\n    \"uploaded_at\": \"2024-01-01T00:00:00+00:00\",\n    \"author\": \"Alice\",\n    \"size\": 10,\n    \"content_type\": \"text/plain\"\n  \x7d\n]" ∧
    (∀ c : Char, 128 ≤ c.toNat → jsonEscapeChar c = String.singleton c) ∧
    dumpJson [] = "[]" ∧
    (∀ atts : List FileInfo, (write_json atts).reportedCount = atts.length) := by
  refine ⟨fun _ _ => rfl, fun _ => rfl, fun _ => rfl, rfl, ?_, rfl, fun _ => rfl⟩
  intro c h
  have h1 : ¬ c = '"' := by intro he; rw [he] at h; exact absurd h (by decide)
  have h2 : ¬ c = '\\' := by intro he; rw [he] at h; exact absurd h (by decide)
  have h3 : ¬ c = '\n' := by intro he; rw [he] at h; exact absurd h (by decide)
  have h4 : ¬ c = '\t' := by intro he; rw [he] at h; exact absurd h (by decide)
  have h5 : ¬ c = '\r' := by intro he; rw [he] at h; exact absurd h (by decide)
  have h6 : ¬ c.toNat = 8 := by omega
  have h7 : ¬ c.toNat = 12 := by omega
  have h8 : ¬ c.toNat < 32 := by omega
  simp only [jsonEscapeChar, if_neg h1, if_neg h2, if_neg h3, if_neg h4, if_neg h5,
    if_neg h6, if_neg h7, if_neg h8]

/-- Witness for C8, at the non-ASCII character with code point 233. -/
theorem claim_C8_witness : jsonEscapeChar 'é' = String.singleton 'é' :=
  claim_C8_writer_format.2.2.2.2.1 'é' (by decide)

/--
C9: the `"." in ts` branch and the no-dot branch of `parse_timestamp`
are the same function, and replacing the two-branch parsing path by
the single unified one leaves the sorter's behaviour unchanged on
every input record list.
-/
theorem claim_C9_unified_parsing_path :
    parseBranchWithDot = parseBranchNoDot ∧
    (∀ l : List FileInfo, sortAttachmentsUnified l = sort_attachments l) := by
  constructor
  · rfl
  · intro l
    have hk : (fun x : FileInfo => parseTimestampStrUnified x.uploaded_at)
        = parse_timestamp :=
      funext fun x => (parseTimestampStr_eq_unified x.uploaded_at).symm
    unfold sortAttachmentsUnified sort_attachments
    rw [hk]

/--
C10: the author-name resolution of the extractor treats an empty
string like an absent field: a record built from a message whose
author carries `global_name = ""` gets the username as author, and the
literal `Unknown` when the username is absent or empty too.
-/
theorem claim_C10_empty_global_name (msg : Message) (a : AuthorObj)
    (att : AttachmentObj) (hma : msg.author = some a) (hg : a.global_name = some "") :
    (fileInfoOf msg att).author = orElseStr a.username "Unknown" ∧
    ((a.username = none ∨ a.username = some "") →
      (fileInfoOf msg att).author = "Unknown") := by
  constructor
  · simp [fileInfoOf, authorNameOf, hma, hg, orElseStr]
  · rintro (hu | hu) <;> simp [fileInfoOf, authorNameOf, hma, hg, hu, orElseStr]

/-- Witness for C10, at an author with empty global name and no username. -/
theorem claim_C10_witness :
    (fileInfoOf ⟨some ⟨some "", none⟩, none, []⟩ ⟨none, none, none, none⟩).author
      = orElseStr none "Unknown" ∧
    (((none : Option String) = none ∨ (none : Option String) = some "") →
      (fileInfoOf ⟨some ⟨some "", none⟩, none, []⟩ ⟨none, none, none, none⟩).author
        = "Unknown") :=
  claim_C10_empty_global_name ⟨some ⟨some "", none⟩, none, []⟩ ⟨some "", none⟩
    ⟨none, none, none, none⟩ rfl rfl

end DiscordSync
